import Mathlib

/-!
Verification of the traceroutemap probing, parsing and anomaly-evaluation
pipeline (src/traceroutemap.py) against its specification.

Modelling conventions:
- Latency samples and averages are modelled as exact rationals.
- Strings are assumed ASCII; the str.isdigit test of the source is modelled
  by the decimal-digit test on characters.
- The raw standard output of the external path-tracing utility is modelled
  as its list of lines (the result of splitlines).
- External collaborators are modelled as oracles: reverse DNS is a function
  from an IP string to an optional host name (none models the herror branch
  of socket.gethostbyaddr), and the geolocation HTTP call is modelled by the
  HttpResult type below.
-/

namespace Traceroutemap

/-- Splitting helper for the whitespace split of the source
(line.split() in perform_traceroute, line 54): accumulates the current
word in reverse and splits on runs of whitespace, producing no empty words. -/
def pySplitAux : List Char → List Char → List (List Char)
  | cur, [] => if cur.isEmpty then [] else [cur.reverse]
  | cur, c :: cs =>
    if c.isWhitespace then
      if cur.isEmpty then pySplitAux [] cs
      else cur.reverse :: pySplitAux [] cs
    else pySplitAux (c :: cur) cs

/-- Python str.split with no separator: split on runs of whitespace,
dropping empty fields. -/
def pySplit (s : String) : List String :=
  (pySplitAux [] s.toList).map List.asString

/-- Splitting helper for the dot split of the source (ip.split(.) on
line 57): Python separator splits keep empty pieces. -/
def splitDotsAux : List Char → List Char → List (List Char)
  | cur, [] => [cur.reverse]
  | cur, c :: cs =>
    if c = '.' then cur.reverse :: splitDotsAux [] cs
    else splitDotsAux (c :: cur) cs

/-- Python s.split with the dot as separator: empty pieces are kept, the
empty string splits to a singleton list of the empty string. -/
def splitDots (s : String) : List String :=
  (splitDotsAux [] s.toList).map List.asString

/-- Python str.isdigit restricted to ASCII: nonempty and all characters
are decimal digits. -/
def pyIsdigit (s : String) : Bool :=
  !s.toList.isEmpty && s.toList.all Char.isDigit

/-- Decimal value of a digit string, as computed by Python int() on a
digit-only string (leading zeros allowed). -/
def strToNat (s : String) : ℕ :=
  s.toList.foldl (fun n c => 10 * n + (c.toNat - ('0').toNat)) 0

/-- The IP validity test of line 57 of the source:
all(part.isdigit() and 0 <= int(part) <= 255 for part in ip.split(.)).
Note this does not require exactly four parts. -/
def isValidIp (ip : String) : Bool :=
  (splitDots ip).all fun part => pyIsdigit part && decide (strToNat part ≤ 255)

/-- Removes the first occurrence of a dot, modelling
lat.replace(., , 1) on line 58 of the source. -/
def removeFirstDot : List Char → List Char
  | [] => []
  | c :: cs => if c = '.' then cs else c :: removeFirstDot cs

/-- The latency-token filter of line 58:
lat.replace(., , 1).isdigit() — at most one dot, all other characters
digits, and nonempty after removing the dot. -/
def isFloatToken (s : String) : Bool :=
  let t := removeFirstDot s.toList
  !t.isEmpty && t.all Char.isDigit

/-- Exact rational value of a latency token accepted by isFloatToken,
modelling Python float() on such a token: integer part, then fractional
digits scaled by a power of ten. -/
def parseFloat (s : String) : ℚ :=
  match splitDots s with
  | [a] => (strToNat a : ℚ)
  | a :: b :: _ => (strToNat a : ℚ) + (strToNat b : ℚ) / (10 : ℚ) ^ b.length
  | [] => 0

/-- One hop of a parsed path: the hop IP as reported in the second
whitespace field of the line, and the latency samples collected from the
remaining fields. -/
structure HopRecord where
  ip : String
  latencies : List ℚ
deriving DecidableEq

/-- The per-line parsing of lines 54-61 of perform_traceroute: split the
line on whitespace; if there are at least two fields, the second is not
the star marker and passes the IP validity test, the line yields a hop
record with the latency samples parsed from the remaining fields;
otherwise the line yields nothing. -/
def parseLine (line : String) : Option HopRecord :=
  match pySplit line with
  | _ :: ip :: rest =>
    if ip ≠ "*" ∧ isValidIp ip then
      some ⟨ip, (rest.filter isFloatToken).map parseFloat⟩
    else none
  | _ => none

/-- The hop records produced by the loop of lines 53-61, in input line
order, one per accepted line. -/
def parseHops (lines : List String) : List HopRecord :=
  lines.filterMap parseLine

/-- Whether a line is treated as a responsive hop by the condition of
lines 55-57: at least two whitespace fields, second field not the star
marker and a valid IP. -/
def responsiveLine (line : String) : Bool :=
  match pySplit line with
  | _ :: ip :: _ => if ip ≠ "*" ∧ isValidIp ip then true else false
  | _ => false

/-- The mutable state of the parsing loop of perform_traceroute:
path (the appended IPs), total_latency, last_responded_ip. -/
structure LoopState where
  path : List String
  total_latency : ℚ
  last_responded_ip : Option String
deriving DecidableEq

/-- One iteration of the loop of lines 53-61: an accepted line appends
its IP to path, adds the sum of its latency samples to total_latency and
overwrites last_responded_ip; any other line leaves the state unchanged. -/
def stepLine (st : LoopState) (line : String) : LoopState :=
  match parseLine line with
  | some h => ⟨st.path ++ [h.ip], st.total_latency + h.latencies.sum, some h.ip⟩
  | none => st

/-- The whole parsing loop, run over the lines after the header
(the source iterates over lines[1:]). -/
def runTrace (lines : List String) : LoopState :=
  lines.foldl stepLine ⟨[], 0, none⟩

/-- The tuple returned by perform_traceroute on success (line 77). -/
structure TraceOutcome where
  site : String
  hop_count : ℕ
  avg_latency : ℚ
  unique_path_count : ℕ
  geo_ip_data : String
  fqdn : Option String
deriving DecidableEq

/-- Lines 68-72 of the source: if there is a last responsive IP, reverse
DNS is attempted; the herror branch falls back to the raw IP; with no
last responsive IP the fqdn stays None. The dns oracle returns some name
on success and none when socket.gethostbyaddr raises socket.herror. -/
def resolveFqdn (dns : String → Option String) : Option String → Option String
  | some ip => some ((dns ip).getD ip)
  | none => none

/-- The successful body of perform_traceroute (lines 49-77), as a
function of the raw stdout lines and the reverse-DNS oracle. The call to
detect_anomalies_and_threats on line 75 only logs and does not affect the
returned tuple; it is modelled separately below. -/
def perform_traceroute_ok (site : String) (stdout : List String)
    (dns : String → Option String) : TraceOutcome :=
  let st := runTrace (stdout.drop 1)
  let hop_count := st.path.length
  let avg_latency : ℚ := if hop_count > 0 then st.total_latency / (hop_count : ℚ) else 0
  let unique_path_count := st.path.dedup.length
  let geo_ip_data := String.intercalate "; " st.path
  ⟨site, hop_count, avg_latency, unique_path_count, geo_ip_data,
    resolveFqdn dns st.last_responded_ip⟩

/-- Result of the external subprocess.run invocation of lines 42-48: the
utility may produce stdout lines, exit non-zero (raising
subprocess.CalledProcessError because of check=True), or exceed the
30-second timeout (raising subprocess.TimeoutExpired). -/
inductive TraceResult where
  | ok (stdout : List String)
  | nonzeroExit
  | timeout
deriving DecidableEq

/-- A Python exception escaping perform_traceroute. -/
inductive PyError where
  | timeoutExpired
deriving DecidableEq

/-- perform_traceroute (lines 36-81): on success returns the outcome
tuple; the except clause on line 79 catches only
subprocess.CalledProcessError (non-zero exit) and returns None; a
subprocess.TimeoutExpired from the 30-second timeout is not caught and
propagates to the caller. -/
def perform_traceroute (site : String) (res : TraceResult)
    (dns : String → Option String) : Except PyError (Option TraceOutcome) :=
  match res with
  | .ok stdout => .ok (some (perform_traceroute_ok site stdout dns))
  | .nonzeroExit => .ok none
  | .timeout => .error .timeoutExpired

/-- The result-collection loop of main (lines 150-153): future.result()
re-raises any exception of its task, aborting the loop; a None result is
skipped; a tuple result is collected. The batch completes successfully
only if no task raised. -/
def runBatch (dns : String → Option String) :
    List (String × TraceResult) → Except PyError (List TraceOutcome)
  | [] => .ok []
  | (site, res) :: rest =>
    match perform_traceroute site res dns with
    | .error e => .error e
    | .ok none => runBatch dns rest
    | .ok (some outcome) =>
      match runBatch dns rest with
      | .error e => .error e
      | .ok os => .ok (outcome :: os)

/-- A flat JSON object with string values, enough to model the country
field the code reads. -/
abbrev Json := List (String × String)

/-- Python dict.get with a default, on the association-list model. -/
def jsonGet (j : Json) (k d : String) : String :=
  (j.lookup k).getD d

/-- Result of the requests.get call of line 98: either a response with a
status code and a JSON body, or a requests.RequestException. -/
inductive HttpResult where
  | response (status : ℕ) (body : Json)
  | requestException

/-- get_geolocation (lines 95-102): returns the JSON body on a 200
response, the empty object on any other status, and the empty object
when requests raises (the except clause logs and returns the empty
object). -/
def get_geolocation (res : HttpResult) : Json :=
  match res with
  | .response status body => if status = 200 then body else []
  | .requestException => []

/-- check_ip_threat_level (lines 104-106): a stub always reporting no
threat. -/
def check_ip_threat_level (_ip : String) : Bool := false

/-- The warning-level alerts emitted by detect_anomalies_and_threats:
the watch-list country alert (some c names the country) and the
threat-score alert. -/
structure Alerts where
  countryAlert : Option String
  threatAlert : Bool
deriving DecidableEq

/-- detect_anomalies_and_threats (lines 84-93): the geolocation result is
consulted only if truthy (a nonempty object); the country field defaults
to the empty string and triggers a warning naming the country when it is
China or Russia; the threat alert fires when check_ip_threat_level
reports true. -/
def detect_anomalies_and_threats (last_ip : String) (geo : HttpResult) : Alerts :=
  let location_info := get_geolocation geo
  let countryAlert :=
    if location_info ≠ [] then
      let country := jsonGet location_info "country" ""
      if country = "China" ∨ country = "Russia" then some country else none
    else none
  ⟨countryAlert, check_ip_threat_level last_ip⟩

/-! ## Helper lemmas -/

/-- Computation rule used to evaluate strToNat on the words produced by
the splitting helpers. -/
theorem strToNat_asString (l : List Char) :
    strToNat l.asString = l.foldl (fun n c => 10 * n + (c.toNat - 48)) 0 := rfl

/-- A line that yields no hop record leaves the loop state unchanged. -/
theorem stepLine_of_none {line : String} (st : LoopState)
    (h : parseLine line = none) : stepLine st line = st := by
  simp [stepLine, h]

/-- A line that yields a hop record appends its IP, adds the sum of its
latencies and overwrites the last responsive IP. -/
theorem stepLine_of_some {line : String} {hr : HopRecord} (st : LoopState)
    (h : parseLine line = some hr) :
    stepLine st line
      = ⟨st.path ++ [hr.ip], st.total_latency + hr.latencies.sum, some hr.ip⟩ := by
  simp [stepLine, h]

/-- The state reached by the parsing loop, described through the hop
records of the input: the path collects the hop IPs in order and
total_latency accumulates the sum of every latency sample of every hop. -/
theorem foldl_stepLine_spec (lines : List String) (st : LoopState) :
    (lines.foldl stepLine st).path = st.path ++ (parseHops lines).map HopRecord.ip
  ∧ (lines.foldl stepLine st).total_latency
      = st.total_latency + ((parseHops lines).map fun hr => hr.latencies.sum).sum := by
  induction lines generalizing st with
  | nil => simp [parseHops]
  | cons l ls ih =>
    simp only [List.foldl_cons]
    rcases hpl : parseLine l with _ | hr
    · rw [stepLine_of_none st hpl]
      have := ih st
      simpa [parseHops, List.filterMap_cons, hpl] using this
    · rw [stepLine_of_some st hpl]
      obtain ⟨hp, ht⟩ :=
        ih ⟨st.path ++ [hr.ip], st.total_latency + hr.latencies.sum, some hr.ip⟩
      constructor
      · rw [hp]; simp [parseHops, List.filterMap_cons, hpl]
      · rw [ht]; simp [parseHops, List.filterMap_cons, hpl]; ring

/-- The hop count of a successful outcome is the number of parsed hop
records. -/
theorem hop_count_eq_length (site : String) (stdout : List String)
    (dns : String → Option String) :
    (perform_traceroute_ok site stdout dns).hop_count
      = (parseHops (stdout.drop 1)).length := by
  have h := (foldl_stepLine_spec (stdout.drop 1) ⟨[], 0, none⟩).1
  simp only [perform_traceroute_ok, runTrace]
  rw [h]
  simp

/-- A line that is not treated as responsive yields no hop record. -/
theorem parseLine_eq_none_of_not_responsive {line : String}
    (h : responsiveLine line = false) : parseLine line = none := by
  rw [responsiveLine] at h
  rw [parseLine]
  rcases hsp : pySplit line with _ | ⟨f, rest⟩
  · simp
  · rcases rest with _ | ⟨ip, rest2⟩
    · simp
    · rw [hsp] at h
      simp only at h ⊢
      split at h
      · cases h
      · simp_all

/-! ## Claim theorems -/

/-- Claim C1: for every parsed path with a positive hop count, the
average latency computed by perform_traceroute equals the sum of every
individual latency sample across all responsive hops divided by the
number of responsive hops — the denominator is the hop count, not the
total sample count. -/
theorem avg_latency_sum_over_hop_count (site : String) (stdout : List String)
    (dns : String → Option String)
    (h : 0 < (perform_traceroute_ok site stdout dns).hop_count) :
    (perform_traceroute_ok site stdout dns).avg_latency
      = (((parseHops (stdout.drop 1)).map fun hr => hr.latencies.sum).sum)
        / ((parseHops (stdout.drop 1)).length : ℚ) := by
  obtain ⟨hp, ht⟩ := foldl_stepLine_spec (stdout.drop 1) ⟨[], 0, none⟩
  have hc : (perform_traceroute_ok site stdout dns).hop_count
      = (parseHops (stdout.drop 1)).length := hop_count_eq_length site stdout dns
  simp only [perform_traceroute_ok, runTrace] at h ⊢
  rw [hp, ht] at *
  simp only [List.nil_append, zero_add, List.length_map] at *
  rw [if_pos]
  exact h

/-- Claim C1 witness: a concrete one-hop output with two latency
samples, average 2.05 over one hop. -/
theorem avg_latency_sum_over_hop_count_witness :
    0 < (perform_traceroute_ok "example.com"
          ["header", " 1  10.0.0.5  2.0 ms 2.1 ms"] (fun _ => none)).hop_count
  ∧ (perform_traceroute_ok "example.com"
        ["header", " 1  10.0.0.5  2.0 ms 2.1 ms"] (fun _ => none)).avg_latency
      = (((parseHops (["header", " 1  10.0.0.5  2.0 ms 2.1 ms"].drop 1)).map
            fun hr => hr.latencies.sum).sum)
        / ((parseHops (["header", " 1  10.0.0.5  2.0 ms 2.1 ms"].drop 1)).length : ℚ) :=
  ⟨by decide,
   avg_latency_sum_over_hop_count "example.com"
     ["header", " 1  10.0.0.5  2.0 ms 2.1 ms"] (fun _ => none) (by decide)⟩

/-- Claim C4: a raw output whose post-header lines are all empty,
unresponsive or without a valid-IP second field yields hop count zero
and average latency zero; the guard on the hop count makes the division
total, so no division-by-zero fault occurs. -/
theorem all_unresponsive_yields_zero (site : String) (stdout : List String)
    (dns : String → Option String)
    (h : ∀ line ∈ stdout.drop 1, responsiveLine line = false) :
    (perform_traceroute_ok site stdout dns).hop_count = 0
  ∧ (perform_traceroute_ok site stdout dns).avg_latency = 0 := by
  have hrun : ∀ (lines : List String), (∀ l ∈ lines, responsiveLine l = false) →
      ∀ st : LoopState, lines.foldl stepLine st = st := by
    intro lines
    induction lines with
    | nil => intro _ st; rfl
    | cons l ls ih =>
      intro hall st
      rw [List.foldl_cons,
        stepLine_of_none st (parseLine_eq_none_of_not_responsive (hall l (by simp)))]
      exact ih (fun x hx => hall x (by simp [hx])) st
  simp only [perform_traceroute_ok, runTrace, hrun (stdout.drop 1) h]
  simp

/-- Claim C4 witness: a header followed by a star line, a one-field
line and a line with an invalid second field. -/
theorem all_unresponsive_yields_zero_witness :
    (∀ line ∈ (["traceroute to host", " 2  *", "x", " 3  abc  1.0 ms"].drop 1),
        responsiveLine line = false)
  ∧ (perform_traceroute_ok "host"
        ["traceroute to host", " 2  *", "x", " 3  abc  1.0 ms"]
        (fun _ => none)).hop_count = 0
  ∧ (perform_traceroute_ok "host"
        ["traceroute to host", " 2  *", "x", " 3  abc  1.0 ms"]
        (fun _ => none)).avg_latency = 0 :=
  ⟨by decide,
   all_unresponsive_yields_zero "host"
     ["traceroute to host", " 2  *", "x", " 3  abc  1.0 ms"]
     (fun _ => none) (by decide)⟩

/-- Claim C6: when the parsed path has a last responsive IP X and the
reverse-DNS oracle fails on X (the socket.herror branch), the fqdn of
the outcome is exactly the raw IP literal X; the failure is a fallback
and no error escapes. -/
theorem dns_failure_falls_back_to_ip (site : String) (stdout : List String)
    (dns : String → Option String) (X : String)
    (hlast : (runTrace (stdout.drop 1)).last_responded_ip = some X)
    (hdns : dns X = none) :
    (perform_traceroute_ok site stdout dns).fqdn = some X := by
  simp only [perform_traceroute_ok, hlast, resolveFqdn, hdns, Option.getD_none]

/-- Claim C6 witness: a one-hop trace whose last responsive IP is
10.0.0.5 and an oracle that always fails resolves to the raw IP. -/
theorem dns_failure_falls_back_to_ip_witness :
    (runTrace (["header", " 1  10.0.0.5  2.0 ms"].drop 1)).last_responded_ip
        = some "10.0.0.5"
  ∧ ((fun _ : String => (none : Option String)) "10.0.0.5" = none)
  ∧ (perform_traceroute_ok "example.com" ["header", " 1  10.0.0.5  2.0 ms"]
        (fun _ => none)).fqdn = some "10.0.0.5" :=
  ⟨by decide, rfl,
   dns_failure_falls_back_to_ip "example.com" ["header", " 1  10.0.0.5  2.0 ms"]
     (fun _ => none) "10.0.0.5" (by decide) rfl⟩

/-- Claim C9: the number of distinct IPs never exceeds the hop count,
and the two are equal exactly when no IP occurs more than once in the
path. -/
theorem unique_path_count_le_hop_count (site : String) (stdout : List String)
    (dns : String → Option String) :
    (perform_traceroute_ok site stdout dns).unique_path_count
        ≤ (perform_traceroute_ok site stdout dns).hop_count
  ∧ ((perform_traceroute_ok site stdout dns).unique_path_count
        = (perform_traceroute_ok site stdout dns).hop_count
      ↔ ∀ ip, (runTrace (stdout.drop 1)).path.count ip ≤ 1) := by
  simp only [perform_traceroute_ok]
  constructor
  · exact ((runTrace (stdout.drop 1)).path.dedup_sublist).length_le
  · constructor
    · intro hlen
      exact List.nodup_iff_count_le_one.mp
        (List.dedup_eq_self.mp
          (((runTrace (stdout.drop 1)).path.dedup_sublist).eq_of_length hlen))
    · intro hcount
      exact congrArg List.length
        (List.dedup_eq_self.mpr (List.nodup_iff_count_le_one.mpr hcount))

/-- The raw output of the scenario of the specification: a header line,
a three-sample hop, a star line and a two-sample hop. -/
def c3Raw : List String :=
  ["traceroute to example.com (93.184.216.34), 30 hops max",
   " 1  192.168.1.1  1.123 ms  1.045 ms  1.200 ms",
   " 2  *",
   " 3  10.0.0.5  5.5 ms 5.6 ms"]

/-- Claim C3: on the scenario output the parser yields exactly the two
hop records with their latency samples, hop count 2, average latency
7.234, unique hop count 2 and last responsive IP 10.0.0.5. -/
theorem scenario_example_com :
    parseHops (c3Raw.drop 1)
        = [⟨"192.168.1.1", [1123/1000, 1045/1000, 12/10]⟩,
           ⟨"10.0.0.5", [55/10, 56/10]⟩]
  ∧ (perform_traceroute_ok "example.com" c3Raw (fun _ => none)).hop_count = 2
  ∧ (perform_traceroute_ok "example.com" c3Raw (fun _ => none)).avg_latency
        = 7234/1000
  ∧ (perform_traceroute_ok "example.com" c3Raw (fun _ => none)).unique_path_count = 2
  ∧ (runTrace (c3Raw.drop 1)).last_responded_ip = some "10.0.0.5" := by
  refine ⟨?_, by decide, ?_, by decide, by decide⟩
  · simp +decide [c3Raw, parseHops, parseLine, pySplit, pySplitAux, isValidIp,
      splitDots, splitDotsAux, pyIsdigit, isFloatToken, removeFirstDot, parseFloat,
      strToNat_asString, List.foldl]
    norm_num
  · simp +decide [c3Raw, perform_traceroute_ok, runTrace, stepLine, parseLine,
      pySplit, pySplitAux, isValidIp, splitDots, splitDotsAux, pyIsdigit,
      isFloatToken, removeFirstDot, parseFloat, strToNat_asString, List.foldl]
    norm_num

/-- Claim C5: for a successful geolocation response, the country alert
is emitted, naming the country, exactly when the country field of the
response is on the watch-list of China and Russia; any other country,
such as France, and the empty-string default produce no country
alert. -/
theorem watchlist_alert_iff_country (ip : String) (body : Json) :
    (detect_anomalies_and_threats ip (HttpResult.response 200 body)).countryAlert
      = if jsonGet body "country" "" = "China" ∨ jsonGet body "country" "" = "Russia"
          then some (jsonGet body "country" "") else none := by
  cases body with
  | nil => simp +decide [detect_anomalies_and_threats, get_geolocation, jsonGet]
  | cons p rest => simp [detect_anomalies_and_threats, get_geolocation]

/-- Claim C7: get_geolocation never propagates an error upward: a
request exception and any non-200 status both yield the empty object,
and with a request exception the risk evaluator degrades to emitting no
country alert. -/
theorem get_geolocation_failure_yields_empty :
    get_geolocation HttpResult.requestException = []
  ∧ (∀ (status : ℕ) (body : Json), status ≠ 200 →
      get_geolocation (HttpResult.response status body) = [])
  ∧ (∀ ip : String,
      (detect_anomalies_and_threats ip HttpResult.requestException).countryAlert
        = none) := by
  refine ⟨rfl, ?_, ?_⟩
  · intro status body h
    simp [get_geolocation, h]
  · intro ip
    simp [detect_anomalies_and_threats, get_geolocation]

/-- Claim C7 witness: a 404 response with a Russia body still yields
the empty object. -/
theorem get_geolocation_failure_yields_empty_witness :
    get_geolocation (HttpResult.response 404 [("country", "Russia")]) = [] :=
  get_geolocation_failure_yields_empty.2.1 404 [("country", "Russia")] (by decide)

/-- Claim C10: a successful lookup returning a nonempty object without
a country field produces no watch-list alert, because the missing
country defaults to the empty string, which is not on the watch-list. -/
theorem missing_country_no_alert (ip : String) (body : Json)
    (hne : body ≠ [])
    (hc : body.lookup "country" = none) :
    (detect_anomalies_and_threats ip (HttpResult.response 200 body)).countryAlert
      = none := by
  simp +decide [detect_anomalies_and_threats, get_geolocation, jsonGet, hne, hc]

/-- Claim C10 witness: a nonempty status-only body produces no country
alert. -/
theorem missing_country_no_alert_witness :
    (detect_anomalies_and_threats "8.8.8.8"
        (HttpResult.response 200 [("status", "success")])).countryAlert = none :=
  missing_country_no_alert "8.8.8.8" [("status", "success")] (by decide) (by decide)

/-- All-successful batches complete with one outcome per target. -/
theorem runBatch_all_ok (dns : String → Option String)
    (ts : List (String × List String)) :
    runBatch dns (ts.map fun t => (t.1, TraceResult.ok t.2))
      = Except.ok (ts.map fun t => perform_traceroute_ok t.1 t.2 dns) := by
  induction ts with
  | nil => rfl
  | cons t rest ih => simp [runBatch, perform_traceroute, ih]

/-- Claim C2 counterexample: a timeout is not caught by the except
clause of perform_traceroute, which catches only CalledProcessError; the
TimeoutExpired exception escapes perform_traceroute and, re-raised by
future.result() in main, aborts the whole ten-target batch instead of
yielding the nine other outcomes. -/
theorem timeout_aborts_batch :
    perform_traceroute "yahoo.com" TraceResult.timeout (fun _ => none)
        = Except.error PyError.timeoutExpired
  ∧ runBatch (fun _ => none)
      [("google.com", TraceResult.ok []), ("youtube.com", TraceResult.ok []),
       ("facebook.com", TraceResult.ok []), ("twitter.com", TraceResult.ok []),
       ("instagram.com", TraceResult.ok []), ("linkedin.com", TraceResult.ok []),
       ("wikipedia.org", TraceResult.ok []), ("amazon.com", TraceResult.ok []),
       ("yahoo.com", TraceResult.timeout), ("netflix.com", TraceResult.ok [])]
      = Except.error PyError.timeoutExpired := ⟨rfl, rfl⟩

/-- Claim C2 as amended: only a non-zero exit of the utility is handled
as a per-target failure — perform_traceroute returns no outcome for that
target, with no retry, and a batch with one non-zero-exit target still
completes successfully with the outcomes of all other targets; a
timeout, by contrast, raises an uncaught exception (see the
counterexample). -/
theorem nonzero_exit_skips_target_only (dns : String → Option String)
    (pre post : List (String × List String)) (site : String) :
    runBatch dns
        ((pre.map fun t => (t.1, TraceResult.ok t.2))
          ++ (site, TraceResult.nonzeroExit)
              :: (post.map fun t => (t.1, TraceResult.ok t.2)))
      = Except.ok ((pre ++ post).map fun t => perform_traceroute_ok t.1 t.2 dns) := by
  induction pre with
  | nil => simpa [runBatch, perform_traceroute] using runBatch_all_ok dns post
  | cons t rest ih => simp [runBatch, perform_traceroute, ih]

/-- Modelled from the wording of the specification: a syntactically
valid dotted-quad IPv4 literal has exactly four dot-separated decimal
parts, each an integer in the range 0 to 255. The source (line 57)
checks only the per-part condition and never counts the parts. -/
def specDottedQuadIPv4 (s : String) : Bool :=
  decide ((splitDots s).length = 4)
    && (splitDots s).all fun part => pyIsdigit part && decide (strToNat part ≤ 255)

/-- Claim C8 counterexample: the line with second field 1.2.3.4.5 is
accepted as a responsive hop and its IP is appended to the path, yet
that string is not a syntactically valid dotted-quad IPv4 literal. -/
theorem hop_ip_not_dotted_quad :
    (parseHops [" 1  1.2.3.4.5  2.5 ms"]).map HopRecord.ip = ["1.2.3.4.5"]
  ∧ specDottedQuadIPv4 "1.2.3.4.5" = false := by
  constructor <;> decide

/-- Claim C8 as amended: every hop record appended to a path has an IP
in which every dot-separated part is a nonempty digit string with value
at most 255 — the number of parts is unconstrained, so the IP need not
be a four-part dotted quad; lines failing this check, unresponsive
markers and lines with fewer than two fields contribute no record. -/
theorem hop_ip_parts_valid (lines : List String) (hr : HopRecord)
    (hmem : hr ∈ parseHops lines) :
    ∀ part ∈ splitDots hr.ip, pyIsdigit part = true ∧ strToNat part ≤ 255 := by
  rw [parseHops, List.mem_filterMap] at hmem
  obtain ⟨line, -, hline⟩ := hmem
  rw [parseLine] at hline
  rcases hsp : pySplit line with _ | ⟨f, rest⟩
  · rw [hsp] at hline; cases hline
  · rcases rest with _ | ⟨ip, rest2⟩
    · rw [hsp] at hline; cases hline
    · rw [hsp] at hline
      simp only at hline
      split at hline
      · rename_i hcond
        have hip : hr.ip = ip := by
          cases hline
          rfl
        have hv := hcond.2
        rw [isValidIp, List.all_eq_true] at hv
        intro part hp
        have := hv part (by rw [hip] at hp; exact hp)
        simp only [Bool.and_eq_true, decide_eq_true_eq] at this
        exact this
      · cases hline

/-- Claim C8 amended witness: the first part of the IP of the hop
parsed from a concrete line is a digit string with value at most 255. -/
theorem hop_ip_parts_valid_witness :
    pyIsdigit "192" = true ∧ strToNat "192" ≤ 255 :=
  hop_ip_parts_valid [" 1  192.168.1.1"] ⟨"192.168.1.1", []⟩ (by decide)
    "192" (by decide)

end Traceroutemap
